import Mathlib

/-!
Shallow embedding of the GearGo server actions (car-dealership marketplace).

Sources embedded:
- `src/actions/admin.js`: `getDbAdmin`, `getAdminTestDrives`,
  `updateTestDriveStatus`, `getDashboardData`;
- `src/unnamed/part_001`: `getDbUser`, `getCarFilters`, `getCars`,
  `toggleSavedCar`, `getCarById`, `getSavedCars`.
- `src/unnamed/part_000` is a second implementation of the admin actions;
  where both exist we embed the `src/actions/admin.js` variant (e.g. the
  dashboard's `completedCarIds.includes` on a plain array), noting that the
  `part_000` variant (a `Set`) has the same membership semantics.

The database is modelled as an explicit record of rows; the authenticated
caller (Clerk) as an `Option String` credential.  Prices are rationals (the
store's decimal type).  Booking and car statuses are strings, since
`updateTestDriveStatus` receives an arbitrary string and validates it
against a list.  Mutating actions are state-passing: they return the
response envelope together with the new database.  `page` and `limit` are
modelled as naturals (the spec only constrains positive values).
-/

/-- A user row (`db.user`). -/
structure User where
  id : Nat
  clerkUserId : String
  role : String
  name : String
  email : String
deriving Repr, DecidableEq

/-- A car row (`db.car`). -/
structure Car where
  id : Nat
  make : String
  model : String
  bodyType : String
  fuelType : String
  transmission : String
  price : ℚ
  status : String
  featured : Bool
  description : String
  createdAt : Nat
deriving Repr, DecidableEq

/-- A test-drive booking row (`db.testDriveBooking`). -/
structure Booking where
  id : Nat
  carId : Nat
  userId : Nat
  status : String
  bookingDate : Nat
  startTime : Nat
  createdAt : Nat
deriving Repr, DecidableEq

/-- A wishlist row (`db.userSavedCar`), composite key (userId, carId). -/
structure SavedCar where
  userId : Nat
  carId : Nat
deriving Repr, DecidableEq

/-- Static dealership reference data (`db.dealershipInfo`). -/
structure Dealership where
  id : Nat
deriving Repr, DecidableEq

/-- The database state visible to the embedded actions. -/
structure DB where
  users : List User
  cars : List Car
  bookings : List Booking
  savedCars : List SavedCar
  dealerships : List Dealership
deriving Repr, DecidableEq

/-- The uniform response envelope `{ success, data, error }`. -/
structure Envelope (α : Type) where
  success : Bool
  data : Option α
  error : Option String
deriving Repr, DecidableEq

/-- Success envelope. -/
def envOk {α : Type} (a : α) : Envelope α :=
  { success := true, data := some a, error := none }

/-- Failure envelope. -/
def envFail {α : Type} (msg : String) : Envelope α :=
  { success := false, data := none, error := some msg }

/-- `getDbUser` (part_001 lines 9-13): resolve the Clerk credential to the
user row, `none` when anonymous or unknown. -/
def getDbUser (db : DB) (cred : Option String) : Option User :=
  match cred with
  | none => none
  | some uid => db.users.find? (fun u => u.clerkUserId == uid)

/-- `getDbAdmin` (admin.js lines 9-17): resolve the caller and require role
ADMIN, `none` otherwise.  (`requireAdmin` in part_000 throws instead of
returning `none`; every caller catches the throw into a failure envelope, so
both gate identically.) -/
def getDbAdmin (db : DB) (cred : Option String) : Option User :=
  match getDbUser db cred with
  | none => none
  | some u => if u.role == "ADMIN" then some u else none

/-- ASCII lowercasing of one character (the model of `toLowerCase`). -/
def lowerChar (c : Char) : Char :=
  if 'A' ≤ c ∧ c ≤ 'Z' then Char.ofNat (c.toNat + 32) else c

/-- ASCII lowercasing of a string (the model of `toLowerCase`). -/
def strLower (s : String) : String := ⟨s.data.map lowerChar⟩

/-- Lexicographic order on character lists (the store's string ordering). -/
def lexLe : List Char → List Char → Bool
  | [], _ => true
  | _ :: _, [] => false
  | a :: as, b :: bs => if a = b then lexLe as bs else decide (a < b)

/-- Lexicographic order on strings. -/
def strLe (a b : String) : Bool := lexLe a.data b.data

/-- Case-insensitive substring containment (`contains`/`insensitive` in the
store's string filter). -/
def strContainsCI (s sub : String) : Bool :=
  let sl := (strLower s).data
  let tl := (strLower sub).data
  (List.range (sl.length + 1)).any (fun i => tl.isPrefixOf (sl.drop i))

/-- Case-insensitive string equality (`equals`/`insensitive`). -/
def strEqCI (a b : String) : Bool :=
  strLower a == strLower b

/-- Insert into a sorted list, keeping earlier elements first on ties
(stable, like the store's ORDER BY). -/
def orderByInsert {α : Type} (le : α → α → Bool) (a : α) : List α → List α
  | [] => [a]
  | b :: l => if le a b then a :: b :: l else b :: orderByInsert le a l

/-- Stable insertion sort: the model of the store's ORDER BY. -/
def orderBySort {α : Type} (le : α → α → Bool) : List α → List α
  | [] => []
  | a :: l => orderByInsert le a (orderBySort le l)

/-- Membership is preserved by `orderByInsert`. -/
lemma mem_orderByInsert {α : Type} (le : α → α → Bool) (a x : α) (l : List α) :
    x ∈ orderByInsert le a l ↔ x = a ∨ x ∈ l := by
  induction l with
  | nil => simp [orderByInsert]
  | cons b l ih =>
    rw [orderByInsert]
    by_cases hle : le a b = true
    · simp [hle]
    · simp only [Bool.not_eq_true] at hle
      simp [hle, ih]
      tauto

/-- Membership is preserved by `orderBySort`. -/
lemma mem_orderBySort {α : Type} (le : α → α → Bool) (x : α) (l : List α) :
    x ∈ orderBySort le l ↔ x ∈ l := by
  induction l with
  | nil => simp [orderBySort]
  | cons a l ih =>
    rw [orderBySort, mem_orderByInsert]
    simp [ih]

/-- `orderByInsert` adds one element to the length. -/
lemma length_orderByInsert {α : Type} (le : α → α → Bool) (a : α) (l : List α) :
    (orderByInsert le a l).length = l.length + 1 := by
  induction l with
  | nil => rfl
  | cons b l ih =>
    rw [orderByInsert]
    by_cases hle : le a b = true
    · simp [hle]
    · simp only [Bool.not_eq_true] at hle
      simp [hle, ih]

/-- `orderBySort` preserves the length. -/
lemma length_orderBySort {α : Type} (le : α → α → Bool) (l : List α) :
    (orderBySort le l).length = l.length := by
  induction l with
  | nil => rfl
  | cons a l ih => rw [orderBySort, length_orderByInsert, ih, List.length_cons]

/-- JS `parseFloat(x) || 0`: a numeric input that is absent or parses to
NaN is modelled as `none`; `|| 0` sends NaN and 0 to 0. -/
def jsOr0 (x : Option ℚ) : ℚ :=
  match x with
  | none => 0
  | some q => if q = 0 then 0 else q

/-- `Number.MAX_SAFE_INTEGER`. -/
def maxSafeInteger : ℚ := 9007199254740991

/-- `parseFloat(conversionRate.toFixed(2))`: round to two decimals
(nearest, ties up, matching `toFixed` on the nonnegative values produced
here). -/
def round2 (q : ℚ) : ℚ := (⌊q * 100 + 1 / 2⌋ : ℚ) / 100

/-- The five legal booking statuses (admin.js line 113). -/
def validStatuses : List String :=
  ["PENDING", "CONFIRMED", "COMPLETED", "CANCELLED", "NO_SHOW"]

/-- Car statistics block of the dashboard payload. -/
structure CarStats where
  total : Nat
  available : Nat
  sold : Nat
  unavailable : Nat
  featured : Nat
deriving Repr, DecidableEq

/-- Test-drive statistics block of the dashboard payload. -/
structure TestDriveStats where
  total : Nat
  pending : Nat
  confirmed : Nat
  completed : Nat
  cancelled : Nat
  noShow : Nat
  conversionRate : ℚ
deriving Repr, DecidableEq

/-- The dashboard payload (`data` of `getDashboardData`). -/
structure DashboardData where
  cars : CarStats
  testDrives : TestDriveStats
deriving Repr, DecidableEq

/-- The statistics computed by `getDashboardData` after the admin gate
(admin.js lines 140-184). -/
def dashboardPayload (db : DB) : DashboardData :=
    let cars := db.cars
    let testDrives := db.bookings
    let completed := (testDrives.filter (fun td => td.status == "COMPLETED")).length
    let completedCarIds :=
      (testDrives.filter (fun td => td.status == "COMPLETED")).map (fun td => td.carId)
    let soldAfterTD :=
      (cars.filter (fun c => c.status == "SOLD" && completedCarIds.contains c.id)).length
    let conversionRate : ℚ :=
      if completed > 0 then ((soldAfterTD : ℚ) / (completed : ℚ)) * 100 else 0
    { cars :=
        { total := cars.length
          available := (cars.filter (fun c => c.status == "AVAILABLE")).length
          sold := (cars.filter (fun c => c.status == "SOLD")).length
          unavailable := (cars.filter (fun c => c.status == "UNAVAILABLE")).length
          featured := (cars.filter (fun c => c.featured)).length }
      testDrives :=
        { total := testDrives.length
          pending := (testDrives.filter (fun td => td.status == "PENDING")).length
          confirmed := (testDrives.filter (fun td => td.status == "CONFIRMED")).length
          completed := completed
          cancelled := (testDrives.filter (fun td => td.status == "CANCELLED")).length
          noShow := (testDrives.filter (fun td => td.status == "NO_SHOW")).length
          conversionRate := round2 conversionRate } }

/-- `getDashboardData` (admin.js lines 135-188): admin-gated global counts
and the conversion rate. -/
def getDashboardData (db : DB) (cred : Option String) : Envelope DashboardData :=
  match getDbAdmin db cred with
  | none => envFail "Unauthorized"
  | some _ => envOk (dashboardPayload db)

/-- `updateTestDriveStatus` (admin.js lines 105-130): admin gate, existence
check, status validation, then unconditional persist.  State-passing: the
second component is the database after the call. -/
def updateTestDriveStatus (db : DB) (cred : Option String) (bookingId : Nat)
    (newStatus : String) : Envelope String × DB :=
  match getDbAdmin db cred with
  | none => (envFail "Unauthorized", db)
  | some _ =>
    match db.bookings.find? (fun b => b.id == bookingId) with
    | none => (envFail "Booking not found", db)
    | some _ =>
      if validStatuses.contains newStatus then
        (envOk "Status updated",
          { db with
              bookings := db.bookings.map (fun b =>
                if b.id == bookingId then { b with status := newStatus } else b) })
      else (envFail "Invalid status", db)

/-- One row of the admin test-drive listing (the `include`d car and the
projected user are looked up from their tables). -/
structure AdminTestDrive where
  id : Nat
  carId : Nat
  car : Option Car
  userId : Nat
  user : Option User
  bookingDate : Nat
  startTime : Nat
  status : String
deriving Repr, DecidableEq

/-- The where-filter of `getAdminTestDrives` (admin.js lines 40-62): an
optional exact status clause ANDed with an optional free-text clause that
spans the booked car's make/model and the booking user's name/email. -/
def adminTestDriveWhere (db : DB) (search status : String) (b : Booking) : Bool :=
  (status == "" || b.status == status) &&
  (search == "" ||
    (match db.cars.find? (fun c => c.id == b.carId) with
     | some c => strContainsCI c.make search || strContainsCI c.model search
     | none => false) ||
    (match db.users.find? (fun u => u.id == b.userId) with
     | some u => strContainsCI u.name search || strContainsCI u.email search
     | none => false))

/-- `orderBy: [{bookingDate: desc}, {startTime: asc}]`. -/
def bookingOrder (a b : Booking) : Bool :=
  decide (b.bookingDate < a.bookingDate) ||
    (a.bookingDate == b.bookingDate && decide (a.startTime ≤ b.startTime))

/-- `getAdminTestDrives` (admin.js lines 35-100): admin gate, filtered and
ordered booking list with embedded car and projected user. -/
def getAdminTestDrives (db : DB) (cred : Option String) (search status : String) :
    Envelope (List AdminTestDrive) :=
  match getDbAdmin db cred with
  | none => envFail "Unauthorized"
  | some _ =>
    let bookings :=
      orderBySort bookingOrder (db.bookings.filter (adminTestDriveWhere db search status))
    envOk (bookings.map (fun b =>
      { id := b.id
        carId := b.carId
        car := db.cars.find? (fun c => c.id == b.carId)
        userId := b.userId
        user := db.users.find? (fun u => u.id == b.userId)
        bookingDate := b.bookingDate
        startTime := b.startTime
        status := b.status }))

/-- The price range of the filters payload. -/
structure PriceRange where
  min : ℚ
  max : ℚ
deriving Repr, DecidableEq

/-- The `getCarFilters` payload. -/
structure FiltersData where
  makes : List String
  bodyTypes : List String
  fuelTypes : List String
  transmissions : List String
  priceRange : PriceRange
deriving Repr, DecidableEq

/-- `distinct` + `orderBy asc` of the store: the sorted list of distinct raw
values. -/
def distinctSorted (l : List String) : List String :=
  (orderBySort strLe l).dedup

/-- `getCarFilters` (part_001 lines 18-74): distinct raw values of the four
categorical fields among AVAILABLE cars, lowercased afterwards, and the
min/max price aggregated over AVAILABLE cars.  The aggregate returns a
decimal object (always truthy) or null, so only a null result falls back to
the defaults 0 / 100000. -/
def carFiltersPayload (db : DB) : FiltersData :=
  let available := db.cars.filter (fun c => c.status == "AVAILABLE")
  { makes := (distinctSorted (available.map (fun c => c.make))).map strLower
    bodyTypes := (distinctSorted (available.map (fun c => c.bodyType))).map strLower
    fuelTypes := (distinctSorted (available.map (fun c => c.fuelType))).map strLower
    transmissions :=
      (distinctSorted (available.map (fun c => c.transmission))).map strLower
    priceRange :=
      { min :=
          match (available.map (fun c => c.price)).min? with
          | none => 0
          | some q => q
        max :=
          match (available.map (fun c => c.price)).max? with
          | none => 100000
          | some q => q } }

/-- `getCarFilters` (part_001 lines 18-74): the distinct-value lists and
price aggregate, wrapped in a success envelope. -/
def getCarFilters (db : DB) : Envelope FiltersData :=
  envOk (carFiltersPayload db)

/-- The parameters of `getCars`, with the source's defaults.  `minPrice` and
`maxPrice` are the values after `parseFloat`: `none` models NaN
(a non-numeric input). -/
structure CarsParams where
  search : String := ""
  make : String := ""
  bodyType : String := ""
  fuelType : String := ""
  transmission : String := ""
  minPrice : Option ℚ := some 0
  maxPrice : Option ℚ := some maxSafeInteger
  sortBy : String := "newest"
  page : Nat := 1
  limit : Nat := 6
deriving Repr, DecidableEq

/-- JS truthiness test `maxPrice && maxPrice < Number.MAX_SAFE_INTEGER`
(part_001 line 109): NaN and 0 are falsy, so the upper-bound clause is
attached only for a nonzero numeric below `MAX_SAFE_INTEGER`. -/
def maxPriceApplies (x : Option ℚ) : Bool :=
  match x with
  | none => false
  | some q => !(q = 0 : Bool) && decide (q < maxSafeInteger)

/-- The where-predicate of `getCars` (part_001 lines 92-111). -/
def carsWhere (p : CarsParams) (c : Car) : Bool :=
  c.status == "AVAILABLE" &&
  (p.search == "" ||
    strContainsCI c.make p.search ||
    strContainsCI c.model p.search ||
    strContainsCI c.description p.search) &&
  (p.make == "" || strEqCI c.make p.make) &&
  (p.bodyType == "" || strEqCI c.bodyType p.bodyType) &&
  (p.fuelType == "" || strEqCI c.fuelType p.fuelType) &&
  (p.transmission == "" || strEqCI c.transmission p.transmission) &&
  decide (jsOr0 p.minPrice ≤ c.price) &&
  (if maxPriceApplies p.maxPrice then decide (c.price ≤ (p.maxPrice.getD 0)) else true)

/-- The sort order of `getCars` (part_001 lines 117-129): price ascending,
price descending, or creation time descending (the default, "newest"). -/
def carOrder (sortBy : String) (a b : Car) : Bool :=
  match sortBy with
  | "priceAsc" => decide (a.price ≤ b.price)
  | "priceDesc" => decide (b.price ≤ a.price)
  | _ => decide (b.createdAt ≤ a.createdAt)

/-- One item of the `getCars` payload: the car with its wishlist flag
(`serializeCarData(car, wishlisted.has(car.id))`). -/
structure CarItem where
  car : Car
  saved : Bool
deriving Repr, DecidableEq

/-- The pagination metadata of `getCars`. -/
structure Pagination where
  total : Nat
  page : Nat
  limit : Nat
  pages : Nat
deriving Repr, DecidableEq

/-- The full `getCars` response. -/
structure CarsResult where
  success : Bool
  data : Option (List CarItem)
  pagination : Option Pagination
  error : Option String
deriving Repr, DecidableEq

/-- `getCars` (part_001 lines 76-164): filtered, sorted, paginated listing
with an unpaginated total count and the caller's wishlist flags.  The
saved-car lookup runs only for a resolved caller. -/
def getCars (db : DB) (cred : Option String) (p : CarsParams) : CarsResult :=
  let dbUser := getDbUser db cred
  let matchingCars := db.cars.filter (carsWhere p)
  let totalCars := matchingCars.length
  let skip := (p.page - 1) * p.limit
  let pageItems := ((orderBySort (carOrder p.sortBy) matchingCars).drop skip).take p.limit
  let wishlisted : List Nat :=
    match dbUser with
    | none => []
    | some u => (db.savedCars.filter (fun s => s.userId == u.id)).map (fun s => s.carId)
  { success := true
    data := some (pageItems.map (fun c => { car := c, saved := wishlisted.contains c.id }))
    pagination := some
      { total := totalCars
        page := p.page
        limit := p.limit
        pages := if 0 < p.limit then (⌈(totalCars : ℚ) / (p.limit : ℚ)⌉).toNat else 0 }
    error := none }

/-- The `{ saved }` payload of `toggleSavedCar`. -/
structure ToggleData where
  saved : Bool
deriving Repr, DecidableEq

/-- `toggleSavedCar` (part_001 lines 169-197): auth check, car existence
check, then flip wishlist membership.  The store's delete on the composite
unique key removes the caller's row for the car; the create inserts one. -/
def toggleSavedCar (db : DB) (cred : Option String) (carId : Nat) :
    Envelope ToggleData × DB :=
  match getDbUser db cred with
  | none => (envFail "Unauthorized", db)
  | some u =>
    match db.cars.find? (fun c => c.id == carId) with
    | none => (envFail "Car not found", db)
    | some _ =>
      match db.savedCars.find? (fun s => s.userId == u.id && s.carId == carId) with
      | some _ =>
        (envOk { saved := false },
          { db with
              savedCars :=
                db.savedCars.filter (fun s => !(s.userId == u.id && s.carId == carId)) })
      | none =>
        (envOk { saved := true },
          { db with savedCars := db.savedCars ++ [{ userId := u.id, carId := carId }] })

/-- The caller's own active booking embedded in a car detail. -/
structure UserTestDrive where
  id : Nat
  status : String
  bookingDate : Nat
deriving Repr, DecidableEq

/-- The `getCarById` payload. -/
structure CarDetail where
  car : Car
  wishlisted : Bool
  userTestDrive : Option UserTestDrive
  dealership : Option Dealership
deriving Repr, DecidableEq

/-- `findFirst` with `orderBy: {createdAt: desc}`. -/
def latestFirst (a b : Booking) : Bool :=
  decide (b.createdAt ≤ a.createdAt)

/-- `getCarById` (part_001 lines 202-267): the car with the caller's
wishlist flag and latest active booking; both lookups run only for a
resolved caller. -/
def getCarById (db : DB) (cred : Option String) (carId : Nat) : Envelope CarDetail :=
  let dbUser := getDbUser db cred
  match db.cars.find? (fun c => c.id == carId) with
  | none => envFail "Car not found"
  | some car =>
    let isWishlisted :=
      match dbUser with
      | none => false
      | some u =>
        (db.savedCars.find? (fun s => s.userId == u.id && s.carId == carId)).isSome
    let userTestDrive : Option UserTestDrive :=
      match dbUser with
      | none => none
      | some u =>
        match
          (orderBySort latestFirst (db.bookings.filter (fun b =>
              b.carId == carId && b.userId == u.id &&
                ["PENDING", "CONFIRMED", "COMPLETED"].contains b.status))).head? with
        | none => none
        | some b => some { id := b.id, status := b.status, bookingDate := b.bookingDate }
    envOk
      { car := car
        wishlisted := isWishlisted
        userTestDrive := userTestDrive
        dealership := db.dealerships.head? }

/-! ### Concrete fixtures for witnesses and counterexamples -/

/-- An administrator row. -/
def admUser : User :=
  { id := 1, clerkUserId := "adm", role := "ADMIN", name := "Ada", email := "ada@x.io" }

/-- A regular (non-admin) user row. -/
def regUser : User :=
  { id := 2, clerkUserId := "usr", role := "USER", name := "Bob", email := "bob@x.io" }

/-- A car row with the given id, price, status and creation time. -/
def mkCar (i : Nat) (price : ℚ) (status : String) (created : Nat) : Car :=
  { id := i, make := "Make", model := "Model", bodyType := "SUV", fuelType := "Gas",
    transmission := "Auto", price := price, status := status, featured := false,
    description := "spacious", createdAt := created }

/-- A booking row with the given id, car, user and status. -/
def mkBooking (i carId userId : Nat) (status : String) : Booking :=
  { id := i, carId := carId, userId := userId, status := status,
    bookingDate := 10, startTime := i, createdAt := i }

/-- One SOLD car with two COMPLETED bookings (the §4.5 asymmetry scenario). -/
def dbAsym : DB :=
  { users := [admUser], cars := [mkCar 1 100 "SOLD" 5],
    bookings := [mkBooking 1 1 1 "COMPLETED", mkBooking 2 1 1 "COMPLETED"],
    savedCars := [], dealerships := [] }

/-- A database with no COMPLETED booking. -/
def dbNoCompleted : DB :=
  { users := [admUser], cars := [mkCar 1 100 "SOLD" 5],
    bookings := [mkBooking 1 1 1 "PENDING"], savedCars := [], dealerships := [] }

/-! ### Helper lemmas -/

/-- `round2` of zero is zero. -/
lemma round2_zero : round2 0 = 0 := by norm_num [round2]

/-- Membership in the mapped filter, as the source's `includes` test, equals
an `any` over the original list. -/
lemma contains_map_filter {α β : Type} [BEq β] [LawfulBEq β] (p : α → Bool) (f : α → β)
    (x : β) (l : List α) :
    ((l.filter p).map f).contains x = l.any (fun a => p a && (f a == x)) := by
  rw [Bool.eq_iff_iff]
  simp only [List.contains_iff_exists_mem_beq, List.mem_map, List.mem_filter,
    List.any_eq_true, Bool.and_eq_true, beq_iff_eq]
  constructor
  · rintro ⟨y, ⟨a, ⟨ha, hpa⟩, rfl⟩, hbeq⟩
    exact ⟨a, ha, hpa, by simpa using hbeq.symm⟩
  · rintro ⟨a, ha, hpa, hfa⟩
    exact ⟨f a, ⟨a, ⟨ha, hpa⟩, rfl⟩, by simp [hfa]⟩

/-- The dashboard numerator (`completedCarIds.includes(c.id)` over the array
of completed bookings' car ids) counts exactly the SOLD cars having at least
one COMPLETED booking. -/
lemma dashboard_numerator_eq (db : DB) :
    db.cars.filter (fun c =>
        c.status == "SOLD" &&
          (((db.bookings.filter (fun td => td.status == "COMPLETED")).map
            (fun td => td.carId)).contains c.id)) =
      db.cars.filter (fun c =>
        c.status == "SOLD" &&
          db.bookings.any (fun b => b.status == "COMPLETED" && b.carId == c.id)) := by
  apply List.filter_congr
  intro c _
  rw [contains_map_filter]

/-! ### Claims -/

/-- C1: for an admin caller, the dashboard conversion rate is
`round2 (numerator / denominator * 100)` where the numerator counts the
distinct SOLD cars having at least one COMPLETED booking (each car once,
however many completed bookings it has) and the denominator counts every
COMPLETED booking, with 0 when the denominator is 0. -/
theorem getDashboardData_conversionRate_spec (db : DB) (cred : Option String) (u : User)
    (hadmin : getDbAdmin db cred = some u) :
    ∃ d, (getDashboardData db cred).data = some d ∧
      d.testDrives.conversionRate =
        (if 0 < (db.bookings.filter (fun b => b.status == "COMPLETED")).length then
          round2
            (((db.cars.filter (fun c =>
                  c.status == "SOLD" &&
                    db.bookings.any (fun b =>
                      b.status == "COMPLETED" && b.carId == c.id))).length : ℚ) /
                ((db.bookings.filter (fun b => b.status == "COMPLETED")).length : ℚ) * 100)
        else 0) := by
  refine ⟨dashboardPayload db, ?_, ?_⟩
  · simp only [getDashboardData, hadmin, envOk]
  · simp only [dashboardPayload, gt_iff_lt]
    rw [dashboard_numerator_eq]
    by_cases h : 0 < (db.bookings.filter (fun b => b.status == "COMPLETED")).length
    · rw [if_pos h, if_pos h]
    · rw [if_neg h, if_neg h, round2_zero]

/-- C1 witness: one SOLD car with two COMPLETED bookings gives conversion
rate 50. -/
theorem getDashboardData_conversionRate_spec_witness :
    Option.map (fun d => d.testDrives.conversionRate)
      ((getDashboardData dbAsym (some "adm")).data) = some 50 := by
  obtain ⟨d, hd, hrate⟩ :=
    getDashboardData_conversionRate_spec dbAsym (some "adm") admUser (by decide)
  rw [hd]
  show some d.testDrives.conversionRate = some 50
  rw [hrate]
  norm_num [dbAsym, mkCar, mkBooking, round2]

/-- C2: whenever no booking has status COMPLETED, the dashboard (for an
admin caller) reports a conversion rate of exactly 0. -/
theorem getDashboardData_conversionRate_zero_of_no_completed
    (db : DB) (cred : Option String) (u : User)
    (hadmin : getDbAdmin db cred = some u)
    (hnone : db.bookings.filter (fun b => b.status == "COMPLETED") = []) :
    ∃ d, (getDashboardData db cred).data = some d ∧
      d.testDrives.conversionRate = 0 := by
  refine ⟨dashboardPayload db, ?_, ?_⟩
  · simp only [getDashboardData, hadmin, envOk]
  · simp only [dashboardPayload, hnone, List.length_nil, gt_iff_lt, lt_irrefl, if_false,
      round2_zero]

/-- C2 witness: a database whose only booking is PENDING yields conversion
rate 0. -/
theorem getDashboardData_conversionRate_zero_of_no_completed_witness :
    Option.map (fun d => d.testDrives.conversionRate)
      ((getDashboardData dbNoCompleted (some "adm")).data) = some 0 := by
  obtain ⟨d, hd, hrate⟩ :=
    getDashboardData_conversionRate_zero_of_no_completed dbNoCompleted (some "adm") admUser
      (by decide) (by decide)
  rw [hd]
  show some d.testDrives.conversionRate = some 0
  rw [hrate]

/-- After mapping the status update over the table, `find?` by the same id
returns the originally found booking with its status replaced. -/
lemma find?_map_setStatus (l : List Booking) (bid : Nat) (s : String) (b : Booking)
    (h : l.find? (fun x => x.id == bid) = some b) :
    (l.map (fun x => if x.id == bid then { x with status := s } else x)).find?
      (fun x => x.id == bid) = some { b with status := s } := by
  induction l with
  | nil => simp at h
  | cons a l ih =>
    simp only [List.find?_cons] at h
    by_cases ha : (a.id == bid) = true
    · simp only [ha] at h
      cases h
      simp only [List.map_cons, if_pos ha, List.find?_cons]
      simp [ha]
    · simp only [ha] at h
      simp only [List.map_cons, List.find?_cons, ha, Bool.false_eq_true, if_false]
      exact ih h

/-- C3: for an admin caller, `updateTestDriveStatus` reports not-found when
no booking matches, reports a validation failure and leaves the state
unchanged when the new status is not one of the five legal values (the check
runs after the existence check and before any mutation), and otherwise
persists the new status unconditionally. -/
theorem updateTestDriveStatus_spec (db : DB) (cred : Option String) (u : User)
    (hadmin : getDbAdmin db cred = some u) (bookingId : Nat) (newStatus : String) :
    (db.bookings.find? (fun b => b.id == bookingId) = none →
      updateTestDriveStatus db cred bookingId newStatus =
        (envFail "Booking not found", db)) ∧
    (∀ b, db.bookings.find? (fun x => x.id == bookingId) = some b →
      (validStatuses.contains newStatus = false →
        updateTestDriveStatus db cred bookingId newStatus =
          (envFail "Invalid status", db)) ∧
      (validStatuses.contains newStatus = true →
        (updateTestDriveStatus db cred bookingId newStatus).1 = envOk "Status updated" ∧
        ((updateTestDriveStatus db cred bookingId newStatus).2).bookings.find?
            (fun x => x.id == bookingId) = some { b with status := newStatus })) := by
  refine ⟨?_, ?_⟩
  · intro hnone
    simp only [updateTestDriveStatus, hadmin, hnone]
  · intro b hb
    refine ⟨?_, ?_⟩
    · intro hbad
      simp only [updateTestDriveStatus, hadmin, hb, hbad, Bool.false_eq_true, if_false]
    · intro hgood
      refine ⟨?_, ?_⟩
      · simp only [updateTestDriveStatus, hadmin, hb, hgood, if_true]
      · simp only [updateTestDriveStatus, hadmin, hb, hgood, if_true]
        exact find?_map_setStatus db.bookings bookingId newStatus b hb

/-- C3 witness: updating booking 1 of the fixture to CONFIRMED succeeds and
persists; instantiating the not-found and invalid-status hypotheses is done
on the same database elsewhere in the conjunction. -/
theorem updateTestDriveStatus_spec_witness :
    (updateTestDriveStatus dbAsym (some "adm") 1 "CONFIRMED").1 = envOk "Status updated" ∧
    ((updateTestDriveStatus dbAsym (some "adm") 1 "CONFIRMED").2).bookings.find?
        (fun x => x.id == 1) = some { mkBooking 1 1 1 "COMPLETED" with status := "CONFIRMED" } :=
  ((updateTestDriveStatus_spec dbAsym (some "adm") admUser (by decide) 1 "CONFIRMED").2
    (mkBooking 1 1 1 "COMPLETED") (by decide)).2 (by decide)

/-- Whether a (user, car) wishlist row is present. -/
def pairMem (db : DB) (uid carId : Nat) : Bool :=
  db.savedCars.any (fun s => s.userId == uid && s.carId == carId)

/-- Number of wishlist rows for a (user, car) pair. -/
def pairCount (db : DB) (uid carId : Nat) : Nat :=
  (db.savedCars.filter (fun s => s.userId == uid && s.carId == carId)).length

/-- `getDbUser` does not depend on the wishlist table. -/
lemma getDbUser_savedCars (db : DB) (l : List SavedCar) (cred : Option String) :
    getDbUser { db with savedCars := l } cred = getDbUser db cred := by
  cases cred <;> rfl

/-- Filtering for a predicate after removing every row satisfying it leaves
nothing. -/
lemma filter_after_remove {α : Type} (p : α → Bool) (l : List α) :
    (l.filter (fun s => !p s)).filter p = [] := by
  rw [List.filter_filter]
  have : (fun a => p a && !p a) = fun _ => false := by
    funext a
    cases hp : p a <;> simp [hp]
  rw [this]
  exact List.filter_false l

/-- No row of `l.filter (fun s => !p s)` satisfies `p`. -/
lemma any_after_remove {α : Type} (p : α → Bool) (l : List α) :
    (l.filter (fun s => !p s)).any p = false := by
  rw [List.any_eq_false]
  intro x hx
  have := (List.mem_filter.mp hx).2
  simp only [Bool.not_eq_true'] at this
  simp [this]

/-- C4: for a resolved caller and an existing car, each `toggleSavedCar`
call reports `saved` equal to the new membership of the (caller, car) pair,
leaves at most one wishlist row for the pair, and two consecutive calls
restore the original membership. -/
theorem toggleSavedCar_spec (db : DB) (cred : Option String) (u : User)
    (hu : getDbUser db cred = some u) (carId : Nat) (car : Car)
    (hcar : db.cars.find? (fun c => c.id == carId) = some car) :
    (toggleSavedCar db cred carId).1.data =
        some ⟨pairMem (toggleSavedCar db cred carId).2 u.id carId⟩ ∧
    pairCount (toggleSavedCar db cred carId).2 u.id carId ≤ 1 ∧
    (toggleSavedCar (toggleSavedCar db cred carId).2 cred carId).1.data =
        some ⟨pairMem (toggleSavedCar (toggleSavedCar db cred carId).2 cred carId).2
          u.id carId⟩ ∧
    pairMem (toggleSavedCar (toggleSavedCar db cred carId).2 cred carId).2 u.id carId =
      pairMem db u.id carId ∧
    pairCount (toggleSavedCar (toggleSavedCar db cred carId).2 cred carId).2 u.id carId
      ≤ 1 := by
  have hu1 : ∀ l, getDbUser { db with savedCars := l } cred = some u := fun l =>
    (getDbUser_savedCars db l cred).trans hu
  have hcar1 : ∀ l,
      ({ db with savedCars := l } : DB).cars.find? (fun c => c.id == carId) = some car :=
    fun _ => hcar
  cases hfind : db.savedCars.find? (fun s => s.userId == u.id && s.carId == carId) with
  | some sc =>
    have hdel : toggleSavedCar db cred carId =
        (envOk { saved := false },
          { db with savedCars :=
              db.savedCars.filter (fun s => !(s.userId == u.id && s.carId == carId)) }) := by
      simp only [toggleSavedCar, hu, hcar, hfind]
    set l1 := db.savedCars.filter (fun s => !(s.userId == u.id && s.carId == carId))
      with hl1
    have hfind1 : l1.find? (fun s => s.userId == u.id && s.carId == carId) = none := by
      rw [List.find?_eq_none]
      intro x hx
      have hx2 := (List.mem_filter.mp hx).2
      simp only [Bool.not_eq_true'] at hx2
      simp [hx2]
    have hadd : toggleSavedCar { db with savedCars := l1 } cred carId =
        (envOk { saved := true },
          { db with savedCars := l1 ++ [{ userId := u.id, carId := carId }] }) := by
      simp only [toggleSavedCar, hu1 l1, hcar1 l1]
      simp only [hfind1]
    have hsc := List.find?_some hfind
    have hscmem := List.mem_of_find?_eq_some hfind
    have hpm : pairMem db u.id carId = true := by
      rw [pairMem, List.any_eq_true]
      exact ⟨sc, hscmem, hsc⟩
    have hmemDel : pairMem { db with savedCars := l1 } u.id carId = false :=
      any_after_remove _ db.savedCars
    have hcntDel : pairCount { db with savedCars := l1 } u.id carId = 0 := by
      show (List.filter _ l1).length = 0
      rw [hl1, filter_after_remove]
      rfl
    have hmemAdd :
        pairMem { db with savedCars := l1 ++ [{ userId := u.id, carId := carId }] }
          u.id carId = true := by
      show ((l1 ++ [_]).any _) = true
      rw [List.any_append]
      simp
    have hcntAdd :
        pairCount { db with savedCars := l1 ++ [{ userId := u.id, carId := carId }] }
          u.id carId = 1 := by
      show ((l1 ++ [_]).filter _).length = 1
      rw [List.filter_append, hl1, filter_after_remove]
      simp
    rw [hdel]
    simp only [hadd]
    refine ⟨?_, ?_, ?_, ?_, ?_⟩
    · rw [hmemDel]
      rfl
    · rw [hcntDel]
      decide
    · rw [hmemAdd]
      rfl
    · rw [hmemAdd, hpm]
    · rw [hcntAdd]
  | none =>
    have hnew : toggleSavedCar db cred carId =
        (envOk { saved := true },
          { db with savedCars :=
              db.savedCars ++ [{ userId := u.id, carId := carId }] }) := by
      simp only [toggleSavedCar, hu, hcar, hfind]
    set l1 := db.savedCars ++ [({ userId := u.id, carId := carId } : SavedCar)] with hl1
    have hnil : db.savedCars.filter (fun s => s.userId == u.id && s.carId == carId) = [] := by
      rw [List.filter_eq_nil_iff]
      exact List.find?_eq_none.mp hfind
    have hany : db.savedCars.any (fun s => s.userId == u.id && s.carId == carId) = false := by
      rw [List.any_eq_false]
      exact List.find?_eq_none.mp hfind
    have hfind1 : l1.find? (fun s => s.userId == u.id && s.carId == carId) =
        some { userId := u.id, carId := carId } := by
      rw [hl1, List.find?_append, hfind]
      simp
    have hdel : toggleSavedCar { db with savedCars := l1 } cred carId =
        (envOk { saved := false },
          { db with savedCars :=
              l1.filter (fun s => !(s.userId == u.id && s.carId == carId)) }) := by
      simp only [toggleSavedCar, hu1 l1, hcar1 l1]
      simp only [hfind1]
    have hpm : pairMem db u.id carId = false := hany
    have hmemAdd : pairMem { db with savedCars := l1 } u.id carId = true := by
      show (l1.any _) = true
      rw [hl1, List.any_append]
      simp
    have hcntAdd : pairCount { db with savedCars := l1 } u.id carId = 1 := by
      show (l1.filter _).length = 1
      rw [hl1, List.filter_append, hnil]
      simp
    have hmemDel :
        pairMem
          { db with
              savedCars := l1.filter (fun s => !(s.userId == u.id && s.carId == carId)) }
          u.id carId = false :=
      any_after_remove _ l1
    have hcntDel :
        pairCount
          { db with
              savedCars := l1.filter (fun s => !(s.userId == u.id && s.carId == carId)) }
          u.id carId = 0 := by
      show (List.filter _ _).length = 0
      rw [filter_after_remove]
      rfl
    rw [hnew]
    simp only [hdel]
    refine ⟨?_, ?_, ?_, ?_, ?_⟩
    · rw [hmemAdd]
      rfl
    · rw [hcntAdd]
    · rw [hmemDel]
      rfl
    · rw [hmemDel, hpm]
    · rw [hcntDel]
      decide

/-- A database for the wishlist scenario: one regular user, one car, empty
wishlist. -/
def dbWish : DB :=
  { users := [regUser], cars := [mkCar 1 100 "AVAILABLE" 5], bookings := [],
    savedCars := [], dealerships := [] }

/-- C4 witness: toggling on the concrete fixture reports the new membership
each time, keeps at most one row, and double toggling restores the empty
wishlist membership. -/
theorem toggleSavedCar_spec_witness :
    (toggleSavedCar dbWish (some "usr") 1).1.data =
        some ⟨pairMem (toggleSavedCar dbWish (some "usr") 1).2 2 1⟩ ∧
    pairCount (toggleSavedCar dbWish (some "usr") 1).2 2 1 ≤ 1 ∧
    (toggleSavedCar (toggleSavedCar dbWish (some "usr") 1).2 (some "usr") 1).1.data =
        some ⟨pairMem
          (toggleSavedCar (toggleSavedCar dbWish (some "usr") 1).2 (some "usr") 1).2
          2 1⟩ ∧
    pairMem (toggleSavedCar (toggleSavedCar dbWish (some "usr") 1).2 (some "usr") 1).2 2 1 =
      pairMem dbWish 2 1 ∧
    pairCount (toggleSavedCar (toggleSavedCar dbWish (some "usr") 1).2 (some "usr") 1).2 2 1
      ≤ 1 :=
  toggleSavedCar_spec dbWish (some "usr") regUser (by decide) 1
    (mkCar 1 100 "AVAILABLE" 5) (by decide)

/-- `getDbAdmin` does not depend on the car and booking tables. -/
lemma getDbAdmin_carsBookings (db : DB) (cred : Option String) :
    getDbAdmin { db with cars := [], bookings := [] } cred = getDbAdmin db cred := by
  cases cred <;> rfl

/-- C8: an anonymous caller or one whose user record is not ADMIN gets an
unauthorized failure envelope from every admin-gated operation, with no
state mutation and a result independent of the car/booking data; only a
caller resolving through the gate has role ADMIN. -/
theorem admin_gate_spec (db : DB) (cred : Option String) (search status : String)
    (bookingId : Nat) (newStatus : String) :
    (getDbAdmin db cred = none →
      getAdminTestDrives db cred search status = envFail "Unauthorized" ∧
      getAdminTestDrives db cred search status =
        getAdminTestDrives { db with cars := [], bookings := [] } cred search status ∧
      getDashboardData db cred = envFail "Unauthorized" ∧
      getDashboardData db cred =
        getDashboardData { db with cars := [], bookings := [] } cred ∧
      updateTestDriveStatus db cred bookingId newStatus = (envFail "Unauthorized", db)) ∧
    (∀ u, getDbAdmin db cred = some u → u.role = "ADMIN") := by
  constructor
  · intro h
    have h2 : getDbAdmin { db with cars := [], bookings := [] } cred = none :=
      (getDbAdmin_carsBookings db cred).trans h
    refine ⟨?_, ?_, ?_, ?_, ?_⟩
    · simp only [getAdminTestDrives, h]
    · simp only [getAdminTestDrives, h, h2]
    · simp only [getDashboardData, h]
    · simp only [getDashboardData, h, h2]
    · simp only [updateTestDriveStatus, h]
  · intro u hu
    cases hg : getDbUser db cred with
    | none =>
      simp only [getDbAdmin, hg] at hu
      exact absurd hu (by simp)
    | some v =>
      simp only [getDbAdmin, hg] at hu
      by_cases hr : (v.role == "ADMIN") = true
      · rw [if_pos hr] at hu
        cases hu
        exact eq_of_beq hr
      · rw [if_neg hr] at hu
        exact absurd hu (by simp)

/-- C8 witness: a regular (non-admin) caller is rejected by all three
admin operations on the wishlist fixture. -/
theorem admin_gate_spec_witness :
    getAdminTestDrives dbWish (some "usr") "" "" = envFail "Unauthorized" ∧
    getAdminTestDrives dbWish (some "usr") "" "" =
      getAdminTestDrives { dbWish with cars := [], bookings := [] } (some "usr") "" "" ∧
    getDashboardData dbWish (some "usr") = envFail "Unauthorized" ∧
    getDashboardData dbWish (some "usr") =
      getDashboardData { dbWish with cars := [], bookings := [] } (some "usr") ∧
    updateTestDriveStatus dbWish (some "usr") 1 "CONFIRMED" =
      (envFail "Unauthorized", dbWish) :=
  (admin_gate_spec dbWish (some "usr") "" "" 1 "CONFIRMED").1 (by decide)

/-- C9: with no resolvable caller, every `getCars` item carries a false
saved flag and the result ignores the wishlist table entirely, and
`getCarById` on an existing car succeeds with a false wishlist flag and no
user test drive. -/
theorem anonymous_caller_spec (db : DB) (cred : Option String) (p : CarsParams)
    (carId : Nat) (h : getDbUser db cred = none) :
    (∀ items, (getCars db cred p).data = some items → ∀ it ∈ items, it.saved = false) ∧
    getCars db cred p = getCars { db with savedCars := [] } cred p ∧
    (∀ car, db.cars.find? (fun c => c.id == carId) = some car →
      ∃ d, (getCarById db cred carId).data = some d ∧
        (getCarById db cred carId).success = true ∧
        d.wishlisted = false ∧ d.userTestDrive = none) := by
  refine ⟨?_, ?_, ?_⟩
  · intro items hdata it hit
    simp only [getCars, h] at hdata
    obtain rfl : _ = items := Option.some.inj hdata
    obtain ⟨c, _, rfl⟩ := List.mem_map.mp hit
    rfl
  · have h2 : getDbUser { db with savedCars := [] } cred = none :=
      (getDbUser_savedCars db [] cred).trans h
    simp only [getCars, h, h2]
  · intro car hcar
    have hform : getCarById db cred carId =
        envOk { car := car, wishlisted := false, userTestDrive := none,
                dealership := db.dealerships.head? } := by
      simp only [getCarById, h, hcar]
    rw [hform]
    exact ⟨_, rfl, rfl, rfl, rfl⟩

/-- C9 witness: the anonymous caller on the wishlist fixture. -/
theorem anonymous_caller_spec_witness :
    ((getCars dbWish none {}).data.map (fun items => items.map (fun it => it.saved)) =
      some [false]) ∧
    getCars dbWish none {} = getCars { dbWish with savedCars := [] } none {} ∧
    Option.map (fun d => (d.wishlisted, d.userTestDrive))
      ((getCarById dbWish none 1).data) = some (false, none) := by
  obtain ⟨h1, h2, h3⟩ := anonymous_caller_spec dbWish none {} 1 rfl
  obtain ⟨d, hd, _, hw, ht⟩ := h3 (mkCar 1 100 "AVAILABLE" 5) (by decide)
  refine ⟨?_, h2, ?_⟩
  · decide
  · rw [hd]
    show some (d.wishlisted, d.userTestDrive) = some (false, none)
    rw [hw, ht]

/-- Every item of a successful `getCars` page comes from the car table and
satisfies the built where-predicate. -/
lemma mem_getCars_data (db : DB) (cred : Option String) (p : CarsParams)
    (items : List CarItem) (hdata : (getCars db cred p).data = some items) :
    ∀ it ∈ items, it.car ∈ db.cars ∧ carsWhere p it.car = true := by
  simp only [getCars] at hdata
  obtain rfl : _ = items := Option.some.inj hdata
  intro it hit
  obtain ⟨c, hc, rfl⟩ := List.mem_map.mp hit
  have h1 := List.mem_of_mem_take hc
  have h2 := List.mem_of_mem_drop h1
  have h3 := (mem_orderBySort _ _ _).mp h2
  exact ⟨(List.mem_filter.mp h3).1, (List.mem_filter.mp h3).2⟩

/-- C10: every car returned by `getCars` has status AVAILABLE, whatever the
search, categorical, price, sort and pagination parameters are. -/
theorem getCars_only_available (db : DB) (cred : Option String) (p : CarsParams)
    (items : List CarItem) (hdata : (getCars db cred p).data = some items) :
    ∀ it ∈ items, it.car.status = "AVAILABLE" := by
  intro it hit
  have hw := (mem_getCars_data db cred p items hdata it hit).2
  rw [carsWhere] at hw
  simp only [Bool.and_eq_true] at hw
  exact eq_of_beq hw.1.1.1.1.1.1.1

/-- C10 witness: the car of the wishlist fixture comes back AVAILABLE. -/
theorem getCars_only_available_witness :
    (CarItem.mk (mkCar 1 100 "AVAILABLE" 5) false).car.status = "AVAILABLE" :=
  getCars_only_available dbWish none {} [CarItem.mk (mkCar 1 100 "AVAILABLE" 5) false]
    (by decide) (CarItem.mk (mkCar 1 100 "AVAILABLE" 5) false) (by decide)

/-- `Math.ceil` of a natural division agrees with the rounded-up natural
division formula. -/
lemma toNat_ceil_div (t l : Nat) (hl : 0 < l) :
    (⌈(t : ℚ) / (l : ℚ)⌉).toNat = (t + l - 1) / l := by
  have hl' : (0:ℚ) < (l:ℚ) := by exact_mod_cast hl
  have hdm := Nat.div_add_mod (t + l - 1) l
  have hmod : (t + l - 1) % l < l := Nat.mod_lt _ hl
  set q := (t + l - 1) / l with hq
  have h1 : t ≤ l * q := by omega
  have h2 : l * q < t + l := by omega
  have hceil : ⌈(t : ℚ) / (l : ℚ)⌉ = (q : ℤ) := by
    rw [Int.ceil_eq_iff]
    constructor
    · rw [lt_div_iff hl']
      have h2' : (l : ℚ) * q < (t : ℚ) + l := by exact_mod_cast h2
      push_cast
      nlinarith
    · rw [div_le_iff hl']
      have h1' : (t : ℚ) ≤ (l : ℚ) * q := by exact_mod_cast h1
      push_cast
      linarith
  rw [hceil]
  exact Int.toNat_natCast q

/-- C6: for positive page and limit, `getCars` succeeds, reports the
unpaginated match count, computes `pages = ceil(total/limit)`, and its page
is exactly the slice from position `(page-1)*limit` of length at most
`limit` of the sorted predicate-matching sequence; an out-of-range page is
empty, not an error. -/
theorem getCars_pagination_spec (db : DB) (cred : Option String) (p : CarsParams)
    (hp : 0 < p.page) (hl : 0 < p.limit) :
    ∃ items pag, (getCars db cred p).data = some items ∧
      (getCars db cred p).pagination = some pag ∧
      (getCars db cred p).success = true ∧
      pag.total = (db.cars.filter (carsWhere p)).length ∧
      pag.pages = (pag.total + p.limit - 1) / p.limit ∧
      items.length = min p.limit (pag.total - (p.page - 1) * p.limit) ∧
      (∀ i, i < p.limit →
        (items[i]?).map (fun it => it.car) =
          (orderBySort (carOrder p.sortBy) (db.cars.filter (carsWhere p)))[
            (p.page - 1) * p.limit + i]?) ∧
      ((db.cars.filter (carsWhere p)).length ≤ (p.page - 1) * p.limit → items = []) := by
  refine ⟨_, _, rfl, rfl, rfl, rfl, ?_, ?_, ?_, ?_⟩
  · show (if 0 < p.limit then _ else 0) = _
    rw [if_pos hl]
    exact toNat_ceil_div _ p.limit hl
  · rw [List.length_map, List.length_take, List.length_drop, length_orderBySort]
  · intro i hi
    rw [List.getElem?_map, List.getElem?_take, if_pos hi, List.getElem?_drop]
    cases hx : (orderBySort (carOrder p.sortBy)
        (db.cars.filter (carsWhere p)))[(p.page - 1) * p.limit + i]? <;> simp [hx]
  · intro hout
    have hnil : (orderBySort (carOrder p.sortBy)
        (db.cars.filter (carsWhere p))).drop ((p.page - 1) * p.limit) = [] :=
      List.drop_eq_nil_of_le (by rw [length_orderBySort]; exact hout)
    rw [hnil, List.take_nil, List.map_nil]

/-- Three AVAILABLE cars for the pagination scenario. -/
def dbPage : DB :=
  { users := [],
    cars := [mkCar 1 10 "AVAILABLE" 1, mkCar 2 20 "AVAILABLE" 2, mkCar 3 30 "AVAILABLE" 3],
    bookings := [], savedCars := [], dealerships := [] }

/-- C6 witness: page 2 of size 2 over 3 matches has total 3 and
`pages = ceil(3/2) = 2`. -/
theorem getCars_pagination_spec_witness :
    Option.map (fun pag => (pag.total, pag.pages))
      ((getCars dbPage none { page := 2, limit := 2 }).pagination) = some (3, 2) := by
  obtain ⟨items, pag, h1, h2, h3, h4, h5, h6, h7, h8⟩ :=
    getCars_pagination_spec dbPage none { page := 2, limit := 2 } (by decide) (by decide)
  rw [h2]
  show some (pag.total, pag.pages) = some (3, 2)
  have ht : pag.total = 3 := h4.trans (by decide)
  have hpg : pag.pages = 2 := by
    rw [h5, ht]
    decide
  rw [ht, hpg]

/-- `parseFloat(m) || 0` is the identity on every numeric value (the `|| 0`
only matters for NaN, since `0 || 0` is still 0). -/
lemma jsOr0_some (m : ℚ) : jsOr0 (some m) = m := by
  by_cases h : m = 0 <;> simp [jsOr0, h]

/-- C5 counterexample: calling `getCars` with minPrice = 0 and maxPrice = 0
(both bounds supplied) returns the price-100 car, which lies outside
[0, 0]: `maxPrice && ...` is falsy at 0, so the upper-bound clause is
dropped. -/
theorem getCars_price_bounds_counterexample :
    Option.map (fun its => its.map (fun it => it.car.price))
      ((getCars dbWish none { minPrice := some 0, maxPrice := some 0 }).data) =
      some [100] ∧ ¬((100 : ℚ) ≤ 0) := by
  constructor
  · decide
  · decide

/-- C5 (amended): when both bounds are supplied as numerics with maxPrice
nonzero and below `MAX_SAFE_INTEGER`, every returned car's price lies in
[minPrice, maxPrice]; an absent/NaN minPrice defaults the lower bound to 0;
and the call never fails. -/
theorem getCars_price_bounds_spec (db : DB) (cred : Option String) (p : CarsParams)
    (items : List CarItem) (hdata : (getCars db cred p).data = some items) :
    (∀ m M, p.minPrice = some m → p.maxPrice = some M → M ≠ 0 → M < maxSafeInteger →
      ∀ it ∈ items, m ≤ it.car.price ∧ it.car.price ≤ M) ∧
    (p.minPrice = none → ∀ it ∈ items, 0 ≤ it.car.price) ∧
    (getCars db cred p).success = true := by
  refine ⟨?_, ?_, rfl⟩
  · intro m M hm hM hM0 hMmax it hit
    have hw := (mem_getCars_data db cred p items hdata it hit).2
    rw [carsWhere] at hw
    simp only [Bool.and_eq_true] at hw
    constructor
    · have := of_decide_eq_true hw.1.2
      rwa [hm, jsOr0_some] at this
    · have h8 := hw.2
      rw [hM] at h8
      have happ : maxPriceApplies (some M) = true := by
        simp [maxPriceApplies, hM0, hMmax]
      rw [happ, if_pos rfl] at h8
      simpa using of_decide_eq_true h8
  · intro hm it hit
    have hw := (mem_getCars_data db cred p items hdata it hit).2
    rw [carsWhere] at hw
    simp only [Bool.and_eq_true] at hw
    have := of_decide_eq_true hw.1.2
    rwa [hm] at this
  
/-- C5 witness: with bounds [10, 200] supplied, the returned price-100 car
is inside the range. -/
theorem getCars_price_bounds_spec_witness :
    (10 : ℚ) ≤ (mkCar 1 100 "AVAILABLE" 5).price ∧
      (mkCar 1 100 "AVAILABLE" 5).price ≤ 200 :=
  (getCars_price_bounds_spec dbWish none { minPrice := some 10, maxPrice := some 200 }
      [CarItem.mk (mkCar 1 100 "AVAILABLE" 5) false] (by decide)).1 10 200 rfl rfl
    (by decide) (by decide) (CarItem.mk (mkCar 1 100 "AVAILABLE" 5) false) (by decide)

/-- `distinctSorted` has the same members as its input. -/
lemma mem_distinctSorted (l : List String) (s : String) :
    s ∈ distinctSorted l ↔ s ∈ l := by
  rw [distinctSorted, List.mem_dedup]
  exact mem_orderBySort _ _ _

/-- The lowercased distinct values of a field over AVAILABLE cars are
exactly the lowercased field values of the AVAILABLE cars. -/
lemma filters_field_mem (db : DB) (f : Car → String) (s : String) :
    (s ∈ (distinctSorted
        ((db.cars.filter (fun c => c.status == "AVAILABLE")).map f)).map strLower) ↔
      ∃ c ∈ db.cars, c.status = "AVAILABLE" ∧ strLower (f c) = s := by
  constructor
  · intro hs
    obtain ⟨raw, hraw, rfl⟩ := List.mem_map.mp hs
    obtain ⟨c, hc, rfl⟩ := List.mem_map.mp ((mem_distinctSorted _ _).mp hraw)
    have hcf := List.mem_filter.mp hc
    exact ⟨c, hcf.1, eq_of_beq hcf.2, rfl⟩
  · rintro ⟨c, hc, hst, rfl⟩
    exact List.mem_map.mpr ⟨f c, (mem_distinctSorted _ _).mpr
      (List.mem_map.mpr ⟨c, List.mem_filter.mpr ⟨hc, by simp [hst]⟩, rfl⟩), rfl⟩

/-- Three cars for the filters counterexample: AVAILABLE "BMW" at 10,
AVAILABLE "bmw" at 5, SOLD "Audi" at 999. -/
def dbFilters : DB :=
  { users := [],
    cars := [{ mkCar 1 10 "AVAILABLE" 1 with make := "BMW" },
             { mkCar 2 5 "AVAILABLE" 2 with make := "bmw" },
             { mkCar 3 999 "SOLD" 3 with make := "Audi" }],
    bookings := [], savedCars := [], dealerships := [] }

/-- C7 counterexample: the price aggregate of `getCarFilters` is restricted
to AVAILABLE cars, not global — with a SOLD car at 999 the reported maximum
is 10, while the global maximum over all cars is 999 — and distinctness is
applied to raw values before lowercasing, so two case-variant makes yield a
duplicated lowercase entry. -/
theorem getCarFilters_price_scope_counterexample :
    Option.map (fun F => (F.makes, F.priceRange.max)) ((getCarFilters dbFilters).data) =
      some (["bmw", "bmw"], 10) ∧
    (dbFilters.cars.map (fun c => c.price)).max? = some 999 ∧ ¬((10 : ℚ) = 999) ∧
    ¬(["bmw", "bmw"] : List String).Nodup := by
  refine ⟨by decide, by decide, by decide, by decide⟩

/-- C7 (amended): `getCarFilters` returns the distinct lowercase values of
make, bodyType, fuelType and transmission among AVAILABLE cars, and the
minimum and maximum price among AVAILABLE cars (not among all cars). -/
theorem getCarFilters_spec (db : DB) :
    ∃ F, (getCarFilters db).data = some F ∧
      (∀ s, s ∈ F.makes ↔ ∃ c ∈ db.cars, c.status = "AVAILABLE" ∧ strLower c.make = s) ∧
      (∀ s, s ∈ F.bodyTypes ↔
        ∃ c ∈ db.cars, c.status = "AVAILABLE" ∧ strLower c.bodyType = s) ∧
      (∀ s, s ∈ F.fuelTypes ↔
        ∃ c ∈ db.cars, c.status = "AVAILABLE" ∧ strLower c.fuelType = s) ∧
      (∀ s, s ∈ F.transmissions ↔
        ∃ c ∈ db.cars, c.status = "AVAILABLE" ∧ strLower c.transmission = s) ∧
      (∀ c ∈ db.cars, c.status = "AVAILABLE" →
        F.priceRange.min ≤ c.price ∧ c.price ≤ F.priceRange.max) ∧
      ((∃ c ∈ db.cars, c.status = "AVAILABLE") →
        (∃ c ∈ db.cars, c.status = "AVAILABLE" ∧ c.price = F.priceRange.min) ∧
        (∃ c ∈ db.cars, c.status = "AVAILABLE" ∧ c.price = F.priceRange.max)) := by
  haveI : Std.Antisymm (α := ℚ) (· ≤ ·) := ⟨@fun _ _ h h2 => le_antisymm h h2⟩
  refine ⟨carFiltersPayload db, rfl, ?_, ?_, ?_, ?_, ?_, ?_⟩
  · exact fun s => filters_field_mem db (fun c => c.make) s
  · exact fun s => filters_field_mem db (fun c => c.bodyType) s
  · exact fun s => filters_field_mem db (fun c => c.fuelType) s
  · exact fun s => filters_field_mem db (fun c => c.transmission) s
  · intro c hc hst
    have hmem : c.price ∈
        (db.cars.filter (fun c => c.status == "AVAILABLE")).map (fun c => c.price) :=
      List.mem_map.mpr ⟨c, List.mem_filter.mpr ⟨hc, by simp [hst]⟩, rfl⟩
    constructor
    · show (carFiltersPayload db).priceRange.min ≤ c.price
      simp only [carFiltersPayload]
      cases hmin : ((db.cars.filter (fun c => c.status == "AVAILABLE")).map
          (fun c => c.price)).min? with
      | none =>
        rw [List.min?_eq_none_iff] at hmin
        rw [hmin] at hmem
        exact absurd hmem (List.not_mem_nil _)
      | some q =>
        exact ((List.min?_eq_some_iff le_refl (fun a b => min_choice a b)
          (fun a b c => le_min_iff)).mp hmin).2 _ hmem
    · show c.price ≤ (carFiltersPayload db).priceRange.max
      simp only [carFiltersPayload]
      cases hmax : ((db.cars.filter (fun c => c.status == "AVAILABLE")).map
          (fun c => c.price)).max? with
      | none =>
        rw [List.max?_eq_none_iff] at hmax
        rw [hmax] at hmem
        exact absurd hmem (List.not_mem_nil _)
      | some q =>
        exact ((List.max?_eq_some_iff le_refl (fun a b => max_choice a b)
          (fun a b c => max_le_iff)).mp hmax).2 _ hmem
  · rintro ⟨c, hc, hst⟩
    have hmem : c.price ∈
        (db.cars.filter (fun c => c.status == "AVAILABLE")).map (fun c => c.price) :=
      List.mem_map.mpr ⟨c, List.mem_filter.mpr ⟨hc, by simp [hst]⟩, rfl⟩
    constructor
    · cases hmin : ((db.cars.filter (fun c => c.status == "AVAILABLE")).map
          (fun c => c.price)).min? with
      | none =>
        rw [List.min?_eq_none_iff] at hmin
        rw [hmin] at hmem
        exact absurd hmem (List.not_mem_nil _)
      | some q =>
        have hq := ((List.min?_eq_some_iff le_refl (fun a b => min_choice a b)
          (fun a b c => le_min_iff)).mp hmin).1
        obtain ⟨c2, hc2, hpq⟩ := List.mem_map.mp hq
        have hcf := List.mem_filter.mp hc2
        refine ⟨c2, hcf.1, eq_of_beq hcf.2, ?_⟩
        show c2.price = (carFiltersPayload db).priceRange.min
        simp only [carFiltersPayload]
        rw [hmin]
        exact hpq
    · cases hmax : ((db.cars.filter (fun c => c.status == "AVAILABLE")).map
          (fun c => c.price)).max? with
      | none =>
        rw [List.max?_eq_none_iff] at hmax
        rw [hmax] at hmem
        exact absurd hmem (List.not_mem_nil _)
      | some q =>
        have hq := ((List.max?_eq_some_iff le_refl (fun a b => max_choice a b)
          (fun a b c => max_le_iff)).mp hmax).1
        obtain ⟨c2, hc2, hpq⟩ := List.mem_map.mp hq
        have hcf := List.mem_filter.mp hc2
        refine ⟨c2, hcf.1, eq_of_beq hcf.2, ?_⟩
        show c2.price = (carFiltersPayload db).priceRange.max
        simp only [carFiltersPayload]
        rw [hmax]
        exact hpq

/-- C7 witness: on the three-car fixture, the reported minimum price is 5,
the cheaper AVAILABLE car's price. -/
theorem getCarFilters_spec_witness :
    Option.map (fun F => F.priceRange.min) ((getCarFilters dbFilters).data) = some 5 := by
  obtain ⟨F, hF, hmakes, hbody, hfuel, htrans, hbounds, hex⟩ := getCarFilters_spec dbFilters
  rw [hF]
  show some F.priceRange.min = some 5
  have hb := (hbounds { mkCar 2 5 "AVAILABLE" 2 with make := "bmw" } (by decide) rfl).1
  obtain ⟨⟨c, hc, hst, hpmin⟩, -⟩ :=
    hex ⟨{ mkCar 2 5 "AVAILABLE" 2 with make := "bmw" }, by decide, rfl⟩
  simp only [dbFilters, List.mem_cons, List.not_mem_nil, or_false] at hc
  rcases hc with h | h | h
  · rw [h] at hpmin
    rw [← hpmin] at hb
    exact absurd hb (by decide)
  · rw [h] at hpmin
    rw [← hpmin]
    rfl
  · rw [h] at hst
    exact absurd hst (by decide)
